import Mathlib

/-!
Verification of the Land Truth Registry core (backend of `land_truth_mvp`).

The backend is a FastAPI application over three SQLAlchemy tables
(`models.py`: `Asset`, `AssetVersion`, `Evidence`), with request validation
done by pydantic schemas (`schemas.py`) and the handlers in `main.py`.

Shallow embedding choices:
* The database is a record of three lists of rows plus the autoincrement
  counters; a handler is a function `… → DB → Except ApiError (result × DB)`.
  A SQL transaction that commits both rows at once is embedded as a single
  state-transformer step producing the new `DB`, so partial commits are not
  representable — this is exactly the atomicity the store guarantees.
* `DateTime` server timestamps (`func.now()`) are modelled as a `Nat` supplied
  to each operation as a `now` argument; traces of operations are run with
  non-decreasing `now` values, matching a monotone server clock.
* SQL `Float` columns are modelled as `Rat`: the validation bounds
  (±90, ±180, 0) and all inputs considered are exactly representable, so the
  comparison behaviour coincides with the float comparisons of the source.
* Pydantic validation runs before a handler's body; a failed validation is
  `ApiError.validationError` (HTTP 422), a failed existence check is
  `ApiError.notFoundError` (HTTP 404).
* Python's `list.sort(key=…, reverse=True)` is a stable sort; it is embedded
  as `List.mergeSort`, which is also stable, with the comparison
  `b.timestamp ≤ a.timestamp` (descending on the key, ties keeping the
  original order — the same input/output behaviour as the source's sort).
-/

namespace LandTruth

/-- Row of the `assets` table (`models.py`, class `Asset`): current state of a
land parcel. `id` is the autoincrement primary key, `created_at` the server
timestamp at insertion. -/
structure Asset where
  id : Nat
  name : String
  owner : String
  location_lat : Rat
  location_lon : Rat
  size_hectares : Rat
  created_at : Nat
deriving DecidableEq

/-- Row of the `asset_versions` table (`models.py`, class `AssetVersion`):
append-only history entry for an asset. -/
structure AssetVersion where
  id : Nat
  asset_id : Nat
  name : String
  owner : String
  change_reason : String
  changed_at : Nat
deriving DecidableEq

/-- Row of the `evidence` table (`models.py`, class `Evidence`). -/
structure Evidence where
  id : Nat
  asset_id : Nat
  evidence_type : String
  description : String
  gps_lat : Rat
  gps_lon : Rat
  timestamp : Nat
deriving DecidableEq

/-- The persistent store: the three tables in insertion order, plus the next
autoincrement id of each table (SQLite autoincrement starts at 1). -/
structure DB where
  assets : List Asset
  versions : List AssetVersion
  evidence : List Evidence
  nextAssetId : Nat
  nextVersionId : Nat
  nextEvidenceId : Nat
deriving DecidableEq

/-- The empty store, as produced by `init_db`. -/
def DB.empty : DB := ⟨[], [], [], 1, 1, 1⟩

/-- Error taxonomy of the API: pydantic validation failure (HTTP 422) and
missing referenced asset (HTTP 404). -/
inductive ApiError where
  | validationError
  | notFoundError
deriving DecidableEq

/-- Request body of `POST /assets/` (`schemas.py`, class `AssetCreate`). -/
structure AssetCreate where
  name : String
  owner : String
  location_lat : Rat
  location_lon : Rat
  size_hectares : Rat
deriving DecidableEq

/-- The pydantic field constraints of `AssetCreate`:
`name`/`owner` have `min_length=1, max_length=255`; `location_lat` has
`ge=-90, le=90`; `location_lon` has `ge=-180, le=180`; `size_hectares` has
`gt=0`. -/
def AssetCreate.valid (a : AssetCreate) : Bool :=
  decide (1 ≤ a.name.length) && decide (a.name.length ≤ 255) &&
  decide (1 ≤ a.owner.length) && decide (a.owner.length ≤ 255) &&
  decide (-90 ≤ a.location_lat) && decide (a.location_lat ≤ 90) &&
  decide (-180 ≤ a.location_lon) && decide (a.location_lon ≤ 180) &&
  decide (0 < a.size_hectares)

/-- Request body of `POST /evidence/` (`schemas.py`, class `EvidenceCreate`).
`asset_id` is a Python `int`, hence `Int` here; its `gt=0` bound lives in
`EvidenceCreate.valid`. -/
structure EvidenceCreate where
  asset_id : Int
  evidence_type : String
  description : String
  gps_lat : Rat
  gps_lon : Rat
deriving DecidableEq

/-- The pydantic field constraints of `EvidenceCreate`: `asset_id` has `gt=0`;
`evidence_type` has `min_length=1, max_length=100`; `description` has
`min_length=1`; `gps_lat` has `ge=-90, le=90`; `gps_lon` has
`ge=-180, le=180`. -/
def EvidenceCreate.valid (e : EvidenceCreate) : Bool :=
  decide (0 < e.asset_id) &&
  decide (1 ≤ e.evidence_type.length) && decide (e.evidence_type.length ≤ 100) &&
  decide (1 ≤ e.description.length) &&
  decide (-90 ≤ e.gps_lat) && decide (e.gps_lat ≤ 90) &&
  decide (-180 ≤ e.gps_lon) && decide (e.gps_lon ≤ 180)

/-- `db.query(Asset).filter(Asset.id == asset_id).first()`: first asset row
whose id equals the given (possibly non-positive) integer. -/
def findAsset (db : DB) (asset_id : Int) : Option Asset :=
  db.assets.find? (fun a => (a.id : Int) == asset_id)

/-- `POST /assets/` (`main.py`, `create_asset`): after validation, insert the
asset row, flush to obtain its id, insert the genesis `AssetVersion` row with
`change_reason = "Genesis Creation"`, and commit both in one transaction. -/
def create_asset (asset : AssetCreate) (now : Nat) (db : DB) :
    Except ApiError (Asset × DB) :=
  if asset.valid then
    let db_asset : Asset :=
      ⟨db.nextAssetId, asset.name, asset.owner, asset.location_lat,
        asset.location_lon, asset.size_hectares, now⟩
    let genesis_version : AssetVersion :=
      ⟨db.nextVersionId, db_asset.id, asset.name, asset.owner,
        "Genesis Creation", now⟩
    .ok (db_asset,
      ⟨db.assets ++ [db_asset], db.versions ++ [genesis_version], db.evidence,
        db.nextAssetId + 1, db.nextVersionId + 1, db.nextEvidenceId⟩)
  else
    .error .validationError

/-- `GET /assets/` (`main.py`, `get_assets`): pagination with query params
`skip` and `limit` (plain Python ints — FastAPI places no bound on them, so
negative values reach the query). `database.py` is not part of the sources;
the MVP's store is SQLite, whose documented behaviour for a negative OFFSET
is to read from the start and for a negative LIMIT is to return all remaining
rows. The handler itself has no failure path. -/
def get_assets (skip limit : Int) (db : DB) : Except ApiError (List Asset) :=
  .ok ((db.assets.drop skip.toNat).take
    (if limit < 0 then db.assets.length else limit.toNat))

/-- `GET /assets/{asset_id}` (`main.py`, `get_asset`): 404 when no row has the
requested id. -/
def get_asset (asset_id : Int) (db : DB) : Except ApiError Asset :=
  match findAsset db asset_id with
  | none => .error .notFoundError
  | some a => .ok a

/-- `POST /evidence/` (`main.py`, `create_evidence`): after validation, check
the referenced asset exists (404 otherwise), then insert one evidence row.
`asset_id > 0` is guaranteed by validation, so storing it as a `Nat` is
lossless. -/
def create_evidence (evidence : EvidenceCreate) (now : Nat) (db : DB) :
    Except ApiError (Evidence × DB) :=
  if evidence.valid then
    match findAsset db evidence.asset_id with
    | none => .error .notFoundError
    | some _ =>
      let db_evidence : Evidence :=
        ⟨db.nextEvidenceId, evidence.asset_id.toNat, evidence.evidence_type,
          evidence.description, evidence.gps_lat, evidence.gps_lon, now⟩
      .ok (db_evidence,
        ⟨db.assets, db.versions, db.evidence ++ [db_evidence],
          db.nextAssetId, db.nextVersionId, db.nextEvidenceId + 1⟩)
  else
    .error .validationError

/-- Payload of a timeline event: the `details` dict of `schemas.py`'s
`TimelineEvent`, as the tagged variant its two call sites construct. -/
inductive EventDetails where
  | version (name owner : String) (version_id : Nat)
  | evidence (evidence_type : String) (gps_lat gps_lon : Rat) (evidence_id : Nat)
deriving DecidableEq

/-- `schemas.py`, class `TimelineEvent`: unified timeline entry. -/
structure TimelineEvent where
  event_type : String
  timestamp : Nat
  description : String
  details : EventDetails
deriving DecidableEq

/-- Projection of an `AssetVersion` row into a timeline event
(`main.py`, `get_asset_timeline`, first loop). -/
def versionEvent (v : AssetVersion) : TimelineEvent :=
  ⟨"version", v.changed_at, v.change_reason, .version v.name v.owner v.id⟩

/-- Projection of an `Evidence` row into a timeline event
(`main.py`, `get_asset_timeline`, second loop); the description is the
f-string `"{evidence_type}: {description}"`. -/
def evidenceEvent (e : Evidence) : TimelineEvent :=
  ⟨"evidence", e.timestamp, e.evidence_type ++ ": " ++ e.description,
    .evidence e.evidence_type e.gps_lat e.gps_lon e.id⟩

/-- `db.query(AssetVersion).filter(AssetVersion.asset_id == asset_id).all()`. -/
def assetVersions (db : DB) (asset_id : Int) : List AssetVersion :=
  db.versions.filter (fun v => (v.asset_id : Int) == asset_id)

/-- `db.query(Evidence).filter(Evidence.asset_id == asset_id).all()`. -/
def assetEvidence (db : DB) (asset_id : Int) : List Evidence :=
  db.evidence.filter (fun e => (e.asset_id : Int) == asset_id)

/-- The comparison realising `timeline.sort(key=lambda x: x.timestamp,
reverse=True)`: `a` may come before `b` iff `b.timestamp ≤ a.timestamp`. -/
def timelineLE (a b : TimelineEvent) : Bool :=
  decide (b.timestamp ≤ a.timestamp)

/-- `GET /assets/{asset_id}/timeline` (`main.py`, `get_asset_timeline`):
404 when the asset is missing; otherwise append all version events, then all
evidence events, and stably sort by timestamp descending. -/
def get_asset_timeline (asset_id : Int) (db : DB) :
    Except ApiError (List TimelineEvent) :=
  match findAsset db asset_id with
  | none => .error .notFoundError
  | some _ =>
    .ok (((assetVersions db asset_id).map versionEvent ++
      (assetEvidence db asset_id).map evidenceEvent).mergeSort timelineLE)

/-- `GET /evidence/` (`main.py`, `get_all_evidence`): pagination exactly as
`get_assets`. -/
def get_all_evidence (skip limit : Int) (db : DB) :
    Except ApiError (List Evidence) :=
  .ok ((db.evidence.drop skip.toNat).take
    (if limit < 0 then db.evidence.length else limit.toNat))

/-- One API call, as issued by a client: the mutating and reading endpoints of
`main.py`. -/
inductive Op where
  | createAsset (input : AssetCreate)
  | logEvidence (input : EvidenceCreate)
  | getAsset (asset_id : Int)
  | listAssets (skip limit : Int)
  | getTimeline (asset_id : Int)
  | listEvidence (skip limit : Int)
deriving DecidableEq

/-- State transition of one API call performed at server time `now`: a failed
or read-only call leaves the store unchanged (the session is rolled back /
never written), a successful write commits its new state. -/
def applyOp (op : Op) (now : Nat) (db : DB) : DB :=
  match op with
  | .createAsset input =>
    match create_asset input now db with
    | .ok (_, db') => db'
    | .error _ => db
  | .logEvidence input =>
    match create_evidence input now db with
    | .ok (_, db') => db'
    | .error _ => db
  | .getAsset _ => db
  | .listAssets _ _ => db
  | .getTimeline _ => db
  | .listEvidence _ _ => db

/-- Run a sequence of API calls, each paired with the server time at which it
executes. -/
def runTrace (db : DB) : List (Op × Nat) → DB
  | [] => db
  | (op, now) :: rest => runTrace (applyOp op now db) rest

end LandTruth

namespace LandTruth

/-! ### Helper lemmas about validation -/

/-- Unfolding of the pydantic constraints of `AssetCreate` into propositions. -/
theorem assetCreate_valid_iff (a : AssetCreate) :
    a.valid = true ↔ (1 ≤ a.name.length ∧ a.name.length ≤ 255 ∧
      1 ≤ a.owner.length ∧ a.owner.length ≤ 255 ∧
      -90 ≤ a.location_lat ∧ a.location_lat ≤ 90 ∧
      -180 ≤ a.location_lon ∧ a.location_lon ≤ 180 ∧
      0 < a.size_hectares) := by
  simp [AssetCreate.valid, and_assoc]

/-- Unfolding of the pydantic constraints of `EvidenceCreate` into
propositions. -/
theorem evidenceCreate_valid_iff (e : EvidenceCreate) :
    e.valid = true ↔ (0 < e.asset_id ∧ 1 ≤ e.evidence_type.length ∧
      e.evidence_type.length ≤ 100 ∧ 1 ≤ e.description.length ∧
      -90 ≤ e.gps_lat ∧ e.gps_lat ≤ 90 ∧
      -180 ≤ e.gps_lon ∧ e.gps_lon ≤ 180) := by
  simp [EvidenceCreate.valid, and_assoc]

/-! ### Helper lemmas about the timeline comparison -/

/-- `timelineLE` is transitive. -/
theorem timelineLE_trans : ∀ a b c : TimelineEvent,
    timelineLE a b = true → timelineLE b c = true → timelineLE a c = true := by
  intro a b c
  simp only [timelineLE, decide_eq_true_eq]
  omega

/-- `timelineLE` is total. -/
theorem timelineLE_total : ∀ a b : TimelineEvent,
    (timelineLE a b || timelineLE b a) = true := by
  intro a b
  simp only [timelineLE, Bool.or_eq_true, decide_eq_true_eq]
  omega

/-! ### Sample inputs used by the witnesses -/

/-- A concrete valid asset-creation request. -/
def sampleAsset : AssetCreate := ⟨"Plot A", "Owner X", -17, 31, 5⟩

/-- The store after creating `sampleAsset` at server time 5 on the empty
store: one asset row and its genesis version row. -/
def sampleDB : DB :=
  ⟨[⟨1, "Plot A", "Owner X", -17, 31, 5, 5⟩],
    [⟨1, 1, "Plot A", "Owner X", "Genesis Creation", 5⟩], [], 2, 2, 1⟩

/-- A concrete valid evidence-creation request against asset 1. -/
def sampleEvidence : EvidenceCreate := ⟨1, "Photo", "fence built", -17, 31⟩

/-- A concrete invalid asset-creation request (empty name). -/
def sampleBadAsset : AssetCreate := ⟨"", "Owner X", 0, 0, 1⟩

/-- A concrete valid evidence-creation request against the nonexistent
asset 7. -/
def sampleOrphanEvidence : EvidenceCreate := ⟨7, "Photo", "fence built", 0, 0⟩

/-- A concrete evidence-creation request with non-positive `asset_id`. -/
def sampleNegEvidence : EvidenceCreate := ⟨-5, "Photo", "fence built", 0, 0⟩

/-! ### C1 -/

/-- C1: for every valid input, `create_asset` appends exactly one `Asset` row
and exactly one `AssetVersion` row with change_reason "Genesis Creation" in a
single state-transformer step (the embedding of the one-transaction commit),
the two rows sharing the asset id, with name and owner copied from the input,
and returns the persisted asset with its assigned id and `created_at`. -/
theorem create_asset_genesis_pair (input : AssetCreate) (now : Nat) (db : DB)
    (hvalid : input.valid = true) :
    ∃ a v db', create_asset input now db = .ok (a, db') ∧
      db'.assets = db.assets ++ [a] ∧
      db'.versions = db.versions ++ [v] ∧
      db'.evidence = db.evidence ∧
      v.change_reason = "Genesis Creation" ∧
      v.asset_id = a.id ∧
      a.name = input.name ∧ a.owner = input.owner ∧
      v.name = input.name ∧ v.owner = input.owner ∧
      a.id = db.nextAssetId ∧ a.created_at = now := by
  unfold create_asset
  rw [if_pos hvalid]
  exact ⟨_, _, _, rfl, rfl, rfl, rfl, rfl, rfl, rfl, rfl, rfl, rfl, rfl, rfl⟩

/-- Witness for C1 at `sampleAsset`, server time 5, empty store. -/
theorem create_asset_genesis_pair_witness :
    ∃ a v db', create_asset sampleAsset 5 DB.empty = .ok (a, db') ∧
      db'.assets = DB.empty.assets ++ [a] ∧
      db'.versions = DB.empty.versions ++ [v] ∧
      db'.evidence = DB.empty.evidence ∧
      v.change_reason = "Genesis Creation" ∧
      v.asset_id = a.id ∧
      a.name = sampleAsset.name ∧ a.owner = sampleAsset.owner ∧
      v.name = sampleAsset.name ∧ v.owner = sampleAsset.owner ∧
      a.id = DB.empty.nextAssetId ∧ a.created_at = 5 :=
  create_asset_genesis_pair sampleAsset 5 DB.empty (by decide)

/-! ### C3 -/

/-- C3: any asset-creation request with empty name or owner, latitude outside
[-90, 90], longitude outside [-180, 180], or non-positive size is rejected
with a validation error, and the store is unchanged by the failed call. -/
theorem create_asset_invalid_rejected (input : AssetCreate) (now : Nat) (db : DB)
    (h : input.name = "" ∨ input.owner = "" ∨
      input.location_lat < -90 ∨ 90 < input.location_lat ∨
      input.location_lon < -180 ∨ 180 < input.location_lon ∨
      input.size_hectares ≤ 0) :
    create_asset input now db = .error .validationError ∧
    applyOp (.createAsset input) now db = db := by
  have hv : input.valid = false := by
    cases hb : input.valid with
    | false => rfl
    | true =>
      exfalso
      obtain ⟨h1, h2, h3, h4, h5, h6, h7, h8, h9⟩ := (assetCreate_valid_iff input).mp hb
      rcases h with h | h | h | h | h | h | h
      · rw [h] at h1; simp at h1
      · rw [h] at h3; simp at h3
      · exact absurd h5 (not_le.mpr h)
      · exact absurd h6 (not_le.mpr h)
      · exact absurd h7 (not_le.mpr h)
      · exact absurd h8 (not_le.mpr h)
      · exact absurd h9 (not_lt.mpr h)
  refine ⟨by simp [create_asset, hv], ?_⟩
  simp [applyOp, create_asset, hv]

/-- Witness for C3 at `sampleBadAsset` (empty name). -/
theorem create_asset_invalid_rejected_witness :
    create_asset sampleBadAsset 5 sampleDB = .error .validationError ∧
    applyOp (.createAsset sampleBadAsset) 5 sampleDB = sampleDB :=
  create_asset_invalid_rejected sampleBadAsset 5 sampleDB (by decide)

/-! ### C4 -/

/-- C4: a well-formed evidence request whose `asset_id` matches no stored
asset is rejected with a not-found error, and the store is unchanged by the
failed call. -/
theorem create_evidence_missing_asset (input : EvidenceCreate) (now : Nat)
    (db : DB) (hvalid : input.valid = true)
    (hmiss : findAsset db input.asset_id = none) :
    create_evidence input now db = .error .notFoundError ∧
    applyOp (.logEvidence input) now db = db := by
  refine ⟨by simp [create_evidence, hvalid, hmiss], ?_⟩
  simp [applyOp, create_evidence, hvalid, hmiss]

/-- Witness for C4 at `sampleOrphanEvidence` (asset 7 does not exist in
`sampleDB`). -/
theorem create_evidence_missing_asset_witness :
    create_evidence sampleOrphanEvidence 9 sampleDB = .error .notFoundError ∧
    applyOp (.logEvidence sampleOrphanEvidence) 9 sampleDB = sampleDB :=
  create_evidence_missing_asset sampleOrphanEvidence 9 sampleDB
    (by decide) (by decide)

/-! ### C5 -/

/-- C5: both `get_asset` and `get_asset_timeline` answer a not-found error
for every id that matches no stored asset. -/
theorem missing_asset_not_found (asset_id : Int) (db : DB)
    (hmiss : findAsset db asset_id = none) :
    get_asset asset_id db = .error .notFoundError ∧
    get_asset_timeline asset_id db = .error .notFoundError := by
  refine ⟨?_, ?_⟩ <;> simp [get_asset, get_asset_timeline, hmiss]

/-- Witness for C5 at id 99999 against `sampleDB`. -/
theorem missing_asset_not_found_witness :
    get_asset 99999 sampleDB = .error .notFoundError ∧
    get_asset_timeline 99999 sampleDB = .error .notFoundError :=
  missing_asset_not_found 99999 sampleDB (by decide)

/-! ### C10 -/

/-- C10: an evidence request with non-positive `asset_id` fails pydantic
validation (the schema requires `asset_id > 0`), so the call answers a
validation error and never the not-found error of the existence check. -/
theorem create_evidence_nonpositive_id (input : EvidenceCreate) (now : Nat)
    (db : DB) (h : input.asset_id ≤ 0) :
    create_evidence input now db = .error .validationError ∧
    create_evidence input now db ≠ .error .notFoundError := by
  have hv : input.valid = false := by
    cases hb : input.valid with
    | false => rfl
    | true => exact absurd ((evidenceCreate_valid_iff input).mp hb).1 (not_lt.mpr h)
  refine ⟨by simp [create_evidence, hv], ?_⟩
  simp [create_evidence, hv]

/-- Witness for C10 at `sampleNegEvidence` (`asset_id = -5`). -/
theorem create_evidence_nonpositive_id_witness :
    create_evidence sampleNegEvidence 9 sampleDB = .error .validationError ∧
    create_evidence sampleNegEvidence 9 sampleDB ≠ .error .notFoundError :=
  create_evidence_nonpositive_id sampleNegEvidence 9 sampleDB (by decide)

end LandTruth

namespace LandTruth

/-! ### C6 -/

/-- C6 counterexample: `get_assets` with `skip = -1` and `limit = -1` does not
fail with a validation error — the handler has no validation on its query
parameters and returns the stored rows. -/
theorem get_assets_negative_counterexample :
    get_assets (-1) (-1) sampleDB =
      .ok [⟨1, "Plot A", "Owner X", -17, 31, 5, 5⟩] ∧
    get_assets (-1) (-1) sampleDB ≠ .error .validationError := by
  refine ⟨rfl, ?_⟩
  intro h
  simp [get_assets] at h

/-- C6 (amended): `list_assets` never fails with a validation error for any
`skip`/`limit`, and for non-negative arguments it returns the assets in
insertion order with the offset and limit clamped to the available range. -/
theorem get_assets_clamped (skip limit : Int) (db : DB) :
    get_assets skip limit db ≠ .error .validationError ∧
    (0 ≤ skip → 0 ≤ limit →
      get_assets skip limit db =
        .ok ((db.assets.drop skip.toNat).take limit.toNat)) := by
  constructor
  · intro h
    simp [get_assets] at h
  · intro hs hl
    unfold get_assets
    rw [if_neg (by omega)]

/-- Witness for C6 (amended) at `skip = 0`, `limit = 100` on `sampleDB`. -/
theorem get_assets_clamped_witness :
    get_assets 0 100 sampleDB ≠ .error .validationError ∧
    get_assets 0 100 sampleDB =
      .ok ((sampleDB.assets.drop (0 : Int).toNat).take (100 : Int).toNat) :=
  ⟨(get_assets_clamped 0 100 sampleDB).1,
    (get_assets_clamped 0 100 sampleDB).2 (by decide) (by decide)⟩

/-! ### C7 -/

/-- C7: for a well-formed evidence request against an existing asset,
`create_evidence` appends exactly one evidence row referencing the request's
`asset_id`, and leaves the asset table and the version table untouched —
no `AssetVersion` is created. -/
theorem create_evidence_frame (input : EvidenceCreate) (now : Nat) (db : DB)
    (a : Asset) (hvalid : input.valid = true)
    (hfound : findAsset db input.asset_id = some a) :
    ∃ e db', create_evidence input now db = .ok (e, db') ∧
      db'.evidence = db.evidence ++ [e] ∧
      (e.asset_id : Int) = input.asset_id ∧
      db'.assets = db.assets ∧
      db'.versions = db.versions := by
  have hpos : 0 < input.asset_id := ((evidenceCreate_valid_iff input).mp hvalid).1
  unfold create_evidence
  rw [if_pos hvalid, hfound]
  exact ⟨_, _, rfl, rfl, by simpa using Int.toNat_of_nonneg (le_of_lt hpos),
    rfl, rfl⟩

/-- Witness for C7 at `sampleEvidence` against `sampleDB`. -/
theorem create_evidence_frame_witness :
    ∃ e db', create_evidence sampleEvidence 9 sampleDB = .ok (e, db') ∧
      db'.evidence = sampleDB.evidence ++ [e] ∧
      (e.asset_id : Int) = sampleEvidence.asset_id ∧
      db'.assets = sampleDB.assets ∧
      db'.versions = sampleDB.versions :=
  create_evidence_frame sampleEvidence 9 sampleDB
    ⟨1, "Plot A", "Owner X", -17, 31, 5, 5⟩ (by decide) (by decide)

end LandTruth

namespace LandTruth

/-! ### C2 -/

/-- C2: for an existing asset, the timeline holds exactly one event per
version row (projected by `versionEvent`) and one per evidence row (projected
by `evidenceEvent`) — hence `|versions| + |evidence|` events in total — and is
sorted by timestamp descending. -/
theorem get_asset_timeline_complete (asset_id : Int) (db : DB) (a : Asset)
    (hfound : findAsset db asset_id = some a) :
    ∃ tl, get_asset_timeline asset_id db = .ok tl ∧
      tl.Perm ((assetVersions db asset_id).map versionEvent ++
        (assetEvidence db asset_id).map evidenceEvent) ∧
      tl.length = (assetVersions db asset_id).length +
        (assetEvidence db asset_id).length ∧
      tl.Pairwise (fun x y => y.timestamp ≤ x.timestamp) ∧
      (∀ ev ∈ tl,
        (∃ v ∈ assetVersions db asset_id, ev = versionEvent v) ∨
        (∃ e ∈ assetEvidence db asset_id, ev = evidenceEvent e)) := by
  unfold get_asset_timeline
  rw [hfound]
  refine ⟨_, rfl, List.mergeSort_perm _ _, ?_, ?_, ?_⟩
  · rw [List.length_mergeSort]
    simp
  · have hs := List.sorted_mergeSort timelineLE_trans timelineLE_total
      ((assetVersions db asset_id).map versionEvent ++
        (assetEvidence db asset_id).map evidenceEvent)
    exact hs.imp (fun hab => of_decide_eq_true hab)
  · intro ev hev
    rw [List.mem_mergeSort] at hev
    rcases List.mem_append.mp hev with hm | hm
    · obtain ⟨v, hv, rfl⟩ := List.mem_map.mp hm
      exact Or.inl ⟨v, hv, rfl⟩
    · obtain ⟨e, he, rfl⟩ := List.mem_map.mp hm
      exact Or.inr ⟨e, he, rfl⟩

/-- Witness for C2: the timeline of asset 1 in `sampleDB`. -/
theorem get_asset_timeline_complete_witness :
    ∃ tl, get_asset_timeline 1 sampleDB = .ok tl ∧
      tl.Perm ((assetVersions sampleDB 1).map versionEvent ++
        (assetEvidence sampleDB 1).map evidenceEvent) ∧
      tl.length = (assetVersions sampleDB 1).length +
        (assetEvidence sampleDB 1).length ∧
      tl.Pairwise (fun x y => y.timestamp ≤ x.timestamp) ∧
      (∀ ev ∈ tl,
        (∃ v ∈ assetVersions sampleDB 1, ev = versionEvent v) ∨
        (∃ e ∈ assetEvidence sampleDB 1, ev = evidenceEvent e)) :=
  get_asset_timeline_complete 1 sampleDB
    ⟨1, "Plot A", "Owner X", -17, 31, 5, 5⟩ (by decide)

/-! ### C9 -/

/-- The stable sort of the timeline leaves the relative order of
equal-timestamp events unchanged: filtering the sorted list down to one
timestamp value gives back the corresponding filter of the unsorted list. -/
theorem filter_mergeSort_timelineLE (l : List TimelineEvent) (t : Nat) :
    (l.mergeSort timelineLE).filter (fun ev => ev.timestamp == t) =
      l.filter (fun ev => ev.timestamp == t) := by
  have hcpair : (l.filter (fun ev => ev.timestamp == t)).Pairwise
      (fun x y => timelineLE x y = true) := by
    apply List.pairwise_of_forall_mem_list
    intro x hx y hy
    have hxt := (List.mem_filter.mp hx).2
    have hyt := (List.mem_filter.mp hy).2
    rw [beq_iff_eq] at hxt hyt
    simp [timelineLE, hxt, hyt]
  have hsub : (l.filter (fun ev => ev.timestamp == t)).Sublist
      (l.mergeSort timelineLE) :=
    List.sublist_mergeSort timelineLE_trans timelineLE_total hcpair
      (List.filter_sublist l)
  have hsub2 := hsub.filter (fun ev => ev.timestamp == t)
  rw [List.filter_filter] at hsub2
  simp only [Bool.and_self] at hsub2
  have hperm : ((l.mergeSort timelineLE).filter
      (fun ev => ev.timestamp == t)).Perm
      (l.filter (fun ev => ev.timestamp == t)) :=
    (List.mergeSort_perm l timelineLE).filter (fun ev => ev.timestamp == t)
  exact (hsub2.eq_of_length hperm.length_eq.symm).symm

/-- C9: for an existing asset, equal-timestamp timeline events appear in a
deterministic order: exactly their order in the unsorted concatenation — all
version events (in storage order) before all evidence events (in storage
order) — because the sort is stable and keyed on the timestamp only. -/
theorem get_asset_timeline_stable_ties (asset_id : Int) (db : DB) (a : Asset)
    (hfound : findAsset db asset_id = some a) :
    ∃ tl, get_asset_timeline asset_id db = .ok tl ∧
      ∀ t : Nat, tl.filter (fun ev => ev.timestamp == t) =
        ((assetVersions db asset_id).map versionEvent ++
          (assetEvidence db asset_id).map evidenceEvent).filter
          (fun ev => ev.timestamp == t) := by
  unfold get_asset_timeline
  rw [hfound]
  exact ⟨_, rfl, fun t => filter_mergeSort_timelineLE _ t⟩

/-- Witness for C9: the timeline of asset 1 in `sampleDB`. -/
theorem get_asset_timeline_stable_ties_witness :
    ∃ tl, get_asset_timeline 1 sampleDB = .ok tl ∧
      ∀ t : Nat, tl.filter (fun ev => ev.timestamp == t) =
        ((assetVersions sampleDB 1).map versionEvent ++
          (assetEvidence sampleDB 1).map evidenceEvent).filter
          (fun ev => ev.timestamp == t) :=
  get_asset_timeline_stable_ties 1 sampleDB
    ⟨1, "Plot A", "Owner X", -17, 31, 5, 5⟩ (by decide)

end LandTruth

namespace LandTruth

/-! ### C8 -/

/-- One API call either leaves the version table untouched, or appends a
single version row stamped with the current server time: no existing row is
ever updated or deleted. -/
theorem applyOp_versions_cases (op : Op) (now : Nat) (db : DB) :
    (applyOp op now db).versions = db.versions ∨
    ∃ v : AssetVersion, v.changed_at = now ∧
      (applyOp op now db).versions = db.versions ++ [v] := by
  cases op with
  | createAsset input =>
    cases hv : input.valid with
    | true =>
      right
      refine ⟨⟨db.nextVersionId, db.nextAssetId, input.name, input.owner,
        "Genesis Creation", now⟩, rfl, ?_⟩
      simp [applyOp, create_asset, hv]
    | false =>
      left
      simp [applyOp, create_asset, hv]
  | logEvidence input =>
    cases hv : input.valid with
    | true =>
      cases hfa : findAsset db input.asset_id with
      | none => left; simp [applyOp, create_evidence, hv, hfa]
      | some a => left; simp [applyOp, create_evidence, hv, hfa]
    | false =>
      left
      simp [applyOp, create_evidence, hv]
  | getAsset asset_id => left; rfl
  | listAssets skip limit => left; rfl
  | getTimeline asset_id => left; rfl
  | listEvidence skip limit => left; rfl

/-- Running a trace whose server times never decrease (and never fall below a
bound dominating every stored `changed_at`) only appends version rows, all
stamped at or above the bound, with non-decreasing timestamps among the
appended rows. -/
theorem runTrace_versions_extend :
    ∀ (trace : List (Op × Nat)) (db : DB) (t0 : Nat),
      (∀ v ∈ db.versions, v.changed_at ≤ t0) →
      List.Chain (fun a b => a ≤ b) t0 (trace.map Prod.snd) →
      ∃ tail, (runTrace db trace).versions = db.versions ++ tail ∧
        (∀ v ∈ tail, t0 ≤ v.changed_at) ∧
        (tail.map (fun v => v.changed_at)).Pairwise (fun a b => a ≤ b)
  | [], db, t0, _, _ => ⟨[], by simp [runTrace], by simp, by simp⟩
  | (op, now) :: rest, db, t0, hdb, hchain => by
    rw [List.map_cons, List.chain_cons] at hchain
    obtain ⟨ht0, hchain'⟩ := hchain
    rcases applyOp_versions_cases op now db with hsame | ⟨v0, hv0, happ⟩
    · have hdb' : ∀ v ∈ (applyOp op now db).versions, v.changed_at ≤ now := by
        rw [hsame]
        intro v hv
        exact le_trans (hdb v hv) ht0
      obtain ⟨tail, h1, h2, h3⟩ :=
        runTrace_versions_extend rest (applyOp op now db) now hdb' hchain'
      refine ⟨tail, ?_, ?_, h3⟩
      · rw [runTrace, h1, hsame]
      · intro v hv
        exact le_trans ht0 (h2 v hv)
    · have hdb' : ∀ v ∈ (applyOp op now db).versions, v.changed_at ≤ now := by
        rw [happ]
        intro v hv
        rcases List.mem_append.mp hv with h | h
        · exact le_trans (hdb v h) ht0
        · rw [List.mem_singleton.mp h, hv0]
      obtain ⟨tail, h1, h2, h3⟩ :=
        runTrace_versions_extend rest (applyOp op now db) now hdb' hchain'
      refine ⟨v0 :: tail, ?_, ?_, ?_⟩
      · rw [runTrace, h1, happ, List.append_assoc]
        rfl
      · intro v hv
        rcases List.mem_cons.mp hv with h | h
        · rw [h, hv0]; exact ht0
        · exact le_trans ht0 (h2 v h)
      · rw [List.map_cons]
        refine List.Pairwise.cons ?_ h3
        intro b hb
        obtain ⟨w, hw, rfl⟩ := List.mem_map.mp hb
        rw [hv0]
        exact h2 w hw

/-- C8: over any trace of API calls executed at non-decreasing server times,
the `changed_at` values of each asset's version rows, in insertion order, are
monotonically non-decreasing; and no single call ever updates or deletes an
existing version row — each call's new version table is the old one plus an
appended tail. -/
theorem asset_versions_append_only_monotone (trace : List (Op × Nat))
    (hchain : (trace.map Prod.snd).Chain' (fun a b => a ≤ b)) :
    (∀ asset_id : Int,
      ((assetVersions (runTrace DB.empty trace) asset_id).map
        (fun v => v.changed_at)).Pairwise (fun a b => a ≤ b)) ∧
    (∀ (op : Op) (now : Nat) (db : DB),
      ∃ tail, (applyOp op now db).versions = db.versions ++ tail) := by
  constructor
  · have hch : List.Chain (fun a b => a ≤ b) 0 (trace.map Prod.snd) := by
      cases h : trace.map Prod.snd with
      | nil => exact List.Chain.nil
      | cons t ts =>
        rw [h] at hchain
        exact List.chain_cons.mpr ⟨Nat.zero_le t, hchain⟩
    obtain ⟨tail, h1, _, h3⟩ :=
      runTrace_versions_extend trace DB.empty 0 (by simp [DB.empty]) hch
    intro asset_id
    have hv : (runTrace DB.empty trace).versions = tail := by
      simpa [DB.empty] using h1
    have hsub : (assetVersions (runTrace DB.empty trace) asset_id).Sublist
        tail := by
      rw [assetVersions, hv]
      exact List.filter_sublist _
    exact List.Pairwise.sublist (hsub.map _) h3
  · intro op now db
    rcases applyOp_versions_cases op now db with h | ⟨v, _, h⟩
    · exact ⟨[], by simp [h]⟩
    · exact ⟨[v], h⟩

/-- Witness for C8: a trace creating an asset at time 3 and logging evidence
at time 7. -/
theorem asset_versions_append_only_monotone_witness :
    (∀ asset_id : Int,
      ((assetVersions (runTrace DB.empty
        [(Op.createAsset sampleAsset, 3), (Op.logEvidence sampleEvidence, 7)])
        asset_id).map (fun v => v.changed_at)).Pairwise (fun a b => a ≤ b)) ∧
    (∀ (op : Op) (now : Nat) (db : DB),
      ∃ tail, (applyOp op now db).versions = db.versions ++ tail) :=
  asset_versions_append_only_monotone
    [(Op.createAsset sampleAsset, 3), (Op.logEvidence sampleEvidence, 7)]
    (by simp)

end LandTruth
